import Mathlib

/-!
Verification of the conversation state machine and persistence layer of the
ozon-bot repository (src/bot.py), shallowly embedded in Lean 4.

The bot is an aiogram-2 Telegram bot.  Pure logic (state transitions, record
construction, CSV append, notifier guard) is embedded as Lean functions; the
messaging platform, the file system and the wall clock appear as explicit
parameters (outbound messages are collected in a `World`, the CSV file is an
`Option (List String)` of lines, the clock is a `DateTime` argument, fallible
persistence and admin delivery are `Bool`/`Except` outcome parameters).

Dispatcher semantics embedded here follow aiogram 2.x: a handler registered
without a `state=` argument only fires when the user has no FSM state set
(the Idle condition); handlers are tried in registration order.
-/

namespace OzonBot

/-! ### Time: model of datetime.utcnow().isoformat() -/

structure DateTime where
  year : Nat
  month : Nat
  day : Nat
  hour : Nat
  minute : Nat
  second : Nat
  microsecond : Nat
deriving DecidableEq, Repr

def pad2 (n : Nat) : String :=
  if n < 10 then "0" ++ toString n else toString n

def pad4 (n : Nat) : String :=
  if n < 10 then "000" ++ toString n
  else if n < 100 then "00" ++ toString n
  else if n < 1000 then "0" ++ toString n
  else toString n

def pad6 (n : Nat) : String :=
  if n < 10 then "00000" ++ toString n
  else if n < 100 then "0000" ++ toString n
  else if n < 1000 then "000" ++ toString n
  else if n < 10000 then "00" ++ toString n
  else if n < 100000 then "0" ++ toString n
  else toString n

/-- Python datetime.isoformat(): YYYY-MM-DDTHH:MM:SS[.ffffff], the
fractional part omitted when microsecond is zero. -/
def DateTime.isoformat (d : DateTime) : String :=
  pad4 d.year ++ "-" ++ pad2 d.month ++ "-" ++ pad2 d.day ++ "T" ++
  pad2 d.hour ++ ":" ++ pad2 d.minute ++ ":" ++ pad2 d.second ++
  (if d.microsecond = 0 then "" else "." ++ pad6 d.microsecond)

/-! ### Python string operations

Modelled over the character list of a `String` so that every operation
computes by kernel reduction. -/

/-- The ASCII whitespace characters stripped by Python str.strip() with no
argument (further Unicode whitespace is outside the inputs modelled here). -/
def isSpaceChar (c : Char) : Bool :=
  c == ' ' || c == '\t' || c == '\n' || c == '\r' || c == '\x0b' || c == '\x0c'

/-- Python str.strip(): remove leading and trailing whitespace. -/
def pyStrip (s : String) : String :=
  String.mk (((s.toList.dropWhile isSpaceChar).reverse.dropWhile isSpaceChar).reverse)

/-- Python str.startswith(pre). -/
def pyStartsWith (s pre : String) : Bool :=
  pre.toList.isPrefixOf s.toList

/-- The characters after the first occurrence of `sep` (empty when `sep`
does not occur). -/
def afterFirstSep (sep : Char) : List Char → List Char
  | [] => []
  | c :: rest => if c = sep then rest else afterFirstSep sep rest

/-! ### Data model -/

/-- FSM stages of bot.py (class ApplyStates); `idle` is the aiogram default
state None, the state outside an application flow. -/
inductive Stage
  | idle
  | waiting_for_name
  | waiting_for_phone
  | waiting_for_ozon_status
  | waiting_for_card_confirmation
deriving DecidableEq, Repr

/-- Per-user FSM data dict: the in-progress applicant draft. -/
structure Draft where
  full_name : Option String
  phone : Option String
deriving DecidableEq, Repr

def emptyDraft : Draft := ⟨none, none⟩

/-- Per-user conversation state: FSM stage plus data dict. -/
structure ChatState where
  stage : Stage
  draft : Draft
deriving DecidableEq, Repr

/-- The sender of an inbound update (callback.from_user). -/
structure TgUser where
  id : Nat
  username : Option String
deriving DecidableEq, Repr

/-- Startup configuration read from the environment.  ADMIN_CHAT_ID is
optional (os.getenv returns None when unset). -/
structure Ctx where
  REF_LINK : String
  ADMIN_CHAT_ID : Option String
deriving DecidableEq, Repr

/-- One durable submission record, the dict built in process_ozon_choice /
card_done and written by save_submission. -/
structure Submission where
  timestamp : String
  tg_id : Nat
  username : String
  full_name : String
  phone : String
  has_ozon_card : String
  card_applied : String
  ref_link_used : String
deriving DecidableEq, Repr

/-- Observable effects: the CSV file (none = file absent), messages delivered
to the admin chat, logged notifier failures, messages answered to the user. -/
structure World where
  file : Option (List String)
  adminInbox : List String
  adminLog : List String
  userMsgs : List String
deriving DecidableEq, Repr

/-! ### Bot copy (string constants from bot.py) -/

def WELCOME_TEXT : String :=
  "👋 Привет! Мы ищем сотрудников на позицию *Ассистент по онлайн-обработке заказов*\n" ++
  "\n" ++
  "🏠 Работа: удалённо\n" ++
  "⏱ График: гибкий\n" ++
  "💸 Выплаты: еженедельно\n" ++
  "\n" ++
  "Нажмите кнопку ниже, чтобы подать заявку — это займет пару минут."

def ASK_NAME : String :=
  "Напишите, пожалуйста, *ФИО* полностью (пример: Иванов Иван Иванович):"

def ASK_PHONE : String :=
  "Отправьте ваш номер телефона (можно нажать кнопку — отправить контакт):"

def ASK_OZON : String :=
  "У вас уже есть карта Ozon Bank? Это нужно для выплат:"

def OZON_PROMO : String :=
  "Мы сотрудничаем с *Ozon Bank* — это позволяет начислять зарплату быстро и без комиссий.\n" ++
  "Если у вас ещё нет карты Ozon Bank, вы можете оформить её бесплатно (3 минуты).\n" ++
  "Нажмите кнопку *Оформить карту Ozon* и завершите заявку по ссылке."

def APPLICATION_SUBMITTED : String :=
  "🎉 *Заявка отправлена!*\n" ++
  "Ваша информация сохранена. Менеджер свяжется с вами в течение 24 часов.\n" ++
  "Если хотите — напишите менеджеру прямо сейчас по кнопке ниже."

def APPLY_BUTTON : String := "Подать заявку"

def MANUAL_BUTTON : String := "Ввести номер вручную"

def MANUAL_PROMPT : String := "Отправьте ваш номер в формате +7XXXXXXXXXX:"

def FALLBACK_TEXT : String :=
  "Чтобы подать заявку, нажмите кнопку *Подать заявку*."

/-! ### Record store (save_submission) -/

/-- The fixed fieldnames row written by csv.DictWriter.writeheader. -/
def HEADER_LINE : String :=
  "timestamp,tg_id,username,full_name,phone,has_ozon_card,card_applied,ref_link_used"

/-- csv module QUOTE_MINIMAL field encoding: quote a field containing the
delimiter, the quote character or a line break, doubling inner quotes. -/
def csvField (s : String) : String :=
  if s.toList.any (fun c => c == ',' || c == '"' || c == '\n' || c == '\r') then
    "\"" ++ String.join (s.toList.map
      (fun c => if c == '"' then "\"\"" else String.singleton c)) ++ "\""
  else s

/-- The CSV row csv.DictWriter.writerow produces for one submission, in the
fixed fieldnames order. -/
def csvRow (r : Submission) : String :=
  String.intercalate ","
    [csvField r.timestamp, csvField (toString r.tg_id), csvField r.username,
     csvField r.full_name, csvField r.phone, csvField r.has_ozon_card,
     csvField r.card_applied, csvField r.ref_link_used]

/-- save_submission: open submissions.csv in append mode; write the header
first when the file did not exist; append one row.  The file is modelled as
its list of lines, `none` when absent. -/
def save_submission (file : Option (List String)) (data : Submission) : List String :=
  match file with
  | none => [HEADER_LINE, csvRow data]
  | some lines => lines ++ [csvRow data]

/-- save_submission with a fallible file system: the open/write may raise
an OSError, which save_submission does not catch. -/
def save_submissionE (saveFails : Bool) (file : Option (List String))
    (data : Submission) : Except String (List String) :=
  if saveFails then Except.error "IOError" else Except.ok (save_submission file data)

/-! ### Notifier (notify_admin) -/

/-- Rendering of the submission dict interpolated into the notification
text; the exact Python dict repr is abstracted as a field concatenation
(no claim depends on this rendering). -/
def submissionStr (s : Submission) : String :=
  String.intercalate ", "
    [s.timestamp, toString s.tg_id, s.username, s.full_name, s.phone,
     s.has_ozon_card, s.card_applied, s.ref_link_used]

def ADMIN_LOG_PREFIX : String := "Не удалось отправить уведомление админу: "

/-- notify_admin: no-op when ADMIN_CHAT_ID is falsy (unset or empty string);
otherwise attempt delivery, catching every exception and logging it.  The
delivery outcome of bot.send_message is an explicit parameter.  The return
type is `World` (not `Except`): the function never raises. -/
def notify_admin (admin : Option String) (delivery : Except String Unit)
    (w : World) (text : String) : World :=
  match admin with
  | none => w
  | some cid =>
    if cid = "" then w
    else
      match delivery with
      | Except.ok _ => { w with adminInbox := w.adminInbox ++ [text] }
      | Except.error e => { w with adminLog := w.adminLog ++ [ADMIN_LOG_PREFIX ++ e] }

/-! ### Text-message dispatch

bot.py registers, in order: cmd_start (commands start/help, no state),
start_application (text = apply button, no state), process_name (state
waiting_for_name, any text), ask_manual_phone (text = manual button, state
waiting_for_phone), process_manual_phone (text starts with "+", state
waiting_for_phone), fallback (any text, no state).  In aiogram 2 a handler
registered without `state=` fires only in the default (no-state) condition,
rendered here as `Stage.idle`. -/

/-- The aiogram Command filter for commands=[start, help]: the first
whitespace-separated token of the message text. -/
def isStartOrHelp (text : String) : Bool :=
  let w := text.toList.takeWhile (fun c => !(c == ' '))
  w == "/start".toList || w == "/help".toList

/-- One inbound text message dispatched against the registered handlers for
the current state, in registration order.  Returns the new chat state and
the world extended with the messages answered; the final catch-all branch is
reached when no handler filter matches (aiogram drops the update). -/
def handleText (s : ChatState) (w : World) (text : String) : ChatState × World :=
  if s.stage = Stage.idle ∧ isStartOrHelp text = true then
    (s, { w with userMsgs := w.userMsgs ++ [WELCOME_TEXT] })
  else if s.stage = Stage.idle ∧ text = APPLY_BUTTON then
    (⟨Stage.waiting_for_name, s.draft⟩, { w with userMsgs := w.userMsgs ++ [ASK_NAME] })
  else if s.stage = Stage.waiting_for_name then
    (⟨Stage.waiting_for_phone, { s.draft with full_name := some (pyStrip text) }⟩,
     { w with userMsgs := w.userMsgs ++ [ASK_PHONE] })
  else if s.stage = Stage.waiting_for_phone ∧ text = MANUAL_BUTTON then
    (s, { w with userMsgs := w.userMsgs ++ [MANUAL_PROMPT] })
  else if s.stage = Stage.waiting_for_phone ∧ pyStartsWith text "+" = true then
    (⟨Stage.waiting_for_ozon_status, { s.draft with phone := some (pyStrip text) }⟩,
     { w with userMsgs := w.userMsgs ++ [ASK_OZON] })
  else if s.stage = Stage.idle then
    (s, { w with userMsgs := w.userMsgs ++ [FALLBACK_TEXT] })
  else
    (s, w)

/-- Whether some specific (non-fallback) handler filter accepts this text
in this stage — the disjunction of the five registered filters. -/
def matchedBySpecific (stage : Stage) (text : String) : Bool :=
  (stage == Stage.idle && isStartOrHelp text) ||
  (stage == Stage.idle && text == APPLY_BUTTON) ||
  (stage == Stage.waiting_for_name) ||
  (stage == Stage.waiting_for_phone && text == MANUAL_BUTTON) ||
  (stage == Stage.waiting_for_phone && pyStartsWith text "+")

/-- A shared-contact message (content type CONTACT): the only contact
handler is process_contact, registered for state waiting_for_phone; in any
other stage the update matches no handler. -/
def handleContact (s : ChatState) (w : World) (phone_number : String) : ChatState × World :=
  if s.stage = Stage.waiting_for_phone then
    (⟨Stage.waiting_for_ozon_status, { s.draft with phone := some phone_number }⟩,
     { w with userMsgs := w.userMsgs ++ [ASK_OZON] })
  else (s, w)

/-! ### Callback-query dispatch (terminal transitions) -/

/-- Python data.split(sep, 1)[1] for sep = underscore: the text after the
first underscore (empty when no underscore occurs; the handler guard
ensures one is present). -/
def splitTail (s : String) : String :=
  String.mk (afterFirstSep '_' s.toList)

/-- process_ozon_choice, for callback data starting with ozon_ in state
waiting_for_ozon_status.  choice = yes: build the submission, persist
(may raise, uncaught), notify the admin, answer the success message, reset
the FSM (state.finish clears stage and data).  Otherwise: show the referral
promo and move to waiting_for_card_confirmation. -/
def process_ozon_choice (user : TgUser) (now : DateTime)
    (ctx : Ctx) (saveFails : Bool) (delivery : Except String Unit)
    (s : ChatState) (w : World) (data : String) :
    Except String (ChatState × World) :=
  let choice := splitTail data
  if choice = "yes" then
    let submission : Submission :=
      { timestamp := now.isoformat
        tg_id := user.id
        username := user.username.getD ""
        full_name := s.draft.full_name.getD ""
        phone := s.draft.phone.getD ""
        has_ozon_card := "yes"
        card_applied := "n/a"
        ref_link_used := "" }
    match save_submissionE saveFails w.file submission with
    | Except.error e => Except.error e
    | Except.ok lines =>
      let w1 := { w with file := some lines }
      let w2 := notify_admin ctx.ADMIN_CHAT_ID delivery w1
                  ("Новая заявка: " ++ submissionStr submission)
      let w3 := { w2 with userMsgs := w2.userMsgs ++ [APPLICATION_SUBMITTED] }
      Except.ok (⟨Stage.idle, emptyDraft⟩, w3)
  else
    Except.ok (⟨Stage.waiting_for_card_confirmation, s.draft⟩,
               { w with userMsgs := w.userMsgs ++ [OZON_PROMO] })

/-- card_done, for callback data card_done in state
waiting_for_card_confirmation.  bot.py calls datetime.utcnow() twice
(timestamp, card_applied): both instants are explicit parameters. -/
def card_done (user : TgUser) (now nowCard : DateTime)
    (ctx : Ctx) (saveFails : Bool) (delivery : Except String Unit)
    (s : ChatState) (w : World) :
    Except String (ChatState × World) :=
  let submission : Submission :=
    { timestamp := now.isoformat
      tg_id := user.id
      username := user.username.getD ""
      full_name := s.draft.full_name.getD ""
      phone := s.draft.phone.getD ""
      has_ozon_card := "no"
      card_applied := nowCard.isoformat
      ref_link_used := ctx.REF_LINK }
  match save_submissionE saveFails w.file submission with
  | Except.error e => Except.error e
  | Except.ok lines =>
    let w1 := { w with file := some lines }
    let w2 := notify_admin ctx.ADMIN_CHAT_ID delivery w1
                ("Новая заявка (оформил карту): " ++ submissionStr submission)
    let w3 := { w2 with userMsgs := w2.userMsgs ++ [APPLICATION_SUBMITTED] }
    Except.ok (⟨Stage.idle, emptyDraft⟩, w3)

/-- One inbound callback query dispatched against the two registered
callback handlers and their state filters; unmatched callbacks change
nothing. -/
def handleCallback (user : TgUser) (now nowCard : DateTime)
    (ctx : Ctx) (saveFails : Bool) (delivery : Except String Unit)
    (s : ChatState) (w : World) (data : String) :
    Except String (ChatState × World) :=
  if s.stage = Stage.waiting_for_ozon_status ∧ pyStartsWith data "ozon_" = true then
    process_ozon_choice user now ctx saveFails delivery s w data
  else if s.stage = Stage.waiting_for_card_confirmation ∧ data = "card_done" then
    card_done user now nowCard ctx saveFails delivery s w
  else
    Except.ok (s, w)

/-! ### Named forms of the submission dicts and of the success path
(used as explicit witnesses in the proofs below) -/

/-- The submission dict built in the yes branch of process_ozon_choice. -/
def subYes (user : TgUser) (now : DateTime) (dft : Draft) : Submission :=
  { timestamp := now.isoformat, tg_id := user.id,
    username := user.username.getD "", full_name := dft.full_name.getD "",
    phone := dft.phone.getD "", has_ozon_card := "yes",
    card_applied := "n/a", ref_link_used := "" }

/-- The submission dict built in card_done. -/
def subNo (user : TgUser) (now nowCard : DateTime) (ctx : Ctx) (dft : Draft) : Submission :=
  { timestamp := now.isoformat, tg_id := user.id,
    username := user.username.getD "", full_name := dft.full_name.getD "",
    phone := dft.phone.getD "", has_ozon_card := "no",
    card_applied := nowCard.isoformat, ref_link_used := ctx.REF_LINK }

/-- The world after a successful terminal transition: record appended,
notifier invoked, success message answered. -/
def finishWorld (admin : Option String) (delivery : Except String Unit)
    (w : World) (sub : Submission) (note : String) : World :=
  let w1 : World := { w with file := some (save_submission w.file sub) }
  let w2 := notify_admin admin delivery w1 note
  { w2 with userMsgs := w2.userMsgs ++ [APPLICATION_SUBMITTED] }

/-! ### Helper lemmas -/

theorem isoformat_min_length (d : DateTime) : 5 ≤ d.isoformat.length := by
  have h1 : ("-" : String).length = 1 := rfl
  have h2 : ("T" : String).length = 1 := rfl
  have h3 : (":" : String).length = 1 := rfl
  unfold DateTime.isoformat
  by_cases hm : d.microsecond = 0 <;>
    simp only [hm, if_true, if_false, String.length_append, reduceIte] <;>
    omega

theorem isoformat_ne_na (d : DateTime) : d.isoformat ≠ "n/a" := by
  intro h
  have hl := isoformat_min_length d
  rw [h] at hl
  have : ("n/a" : String).length = 3 := rfl
  omega

theorem isoformat_ne_empty (d : DateTime) : d.isoformat ≠ "" := by
  intro h
  have hl := isoformat_min_length d
  rw [h] at hl
  have : ("" : String).length = 0 := rfl
  omega

theorem notify_admin_file (admin : Option String) (d : Except String Unit)
    (w : World) (t : String) : (notify_admin admin d w t).file = w.file := by
  unfold notify_admin
  cases admin with
  | none => rfl
  | some cid =>
    cases d <;> by_cases h : cid = "" <;> simp [h]

theorem notify_admin_userMsgs (admin : Option String) (d : Except String Unit)
    (w : World) (t : String) : (notify_admin admin d w t).userMsgs = w.userMsgs := by
  unfold notify_admin
  cases admin with
  | none => rfl
  | some cid =>
    cases d <;> by_cases h : cid = "" <;> simp [h]

/-! ### Claim theorems -/

/-- C1: for every in-progress draft, when the user in state
AskingCardOwnership (waiting_for_ozon_status) chooses the has-card option
(callback data ozon_yes), a record is persisted whose has_ozon_card field is
yes, whose card_applied field is the not-applicable sentinel n/a and whose
ref_link_used field is empty, and the conversation state is reset to Idle
with the draft cleared. -/
theorem claim_C1_has_card_yes (user : TgUser) (now nowCard : DateTime)
    (ctx : Ctx) (delivery : Except String Unit) (dft : Draft) (w : World) :
    ∃ (rec : Submission) (w2 : World),
      handleCallback user now nowCard ctx false delivery
          ⟨Stage.waiting_for_ozon_status, dft⟩ w "ozon_yes"
        = Except.ok (⟨Stage.idle, emptyDraft⟩, w2) ∧
      w2.file = some (save_submission w.file rec) ∧
      w2.userMsgs = w.userMsgs ++ [APPLICATION_SUBMITTED] ∧
      rec.has_ozon_card = "yes" ∧ rec.card_applied = "n/a" ∧
      rec.ref_link_used = "" := by
  refine ⟨subYes user now dft,
    finishWorld ctx.ADMIN_CHAT_ID delivery w (subYes user now dft)
      ("Новая заявка: " ++ submissionStr (subYes user now dft)),
    by rfl, ?_, ?_, rfl, rfl, rfl⟩
  · simp [finishWorld, notify_admin_file]
  · simp [finishWorld, notify_admin_userMsgs]


/-- C2: for every in-progress draft, choosing the no-card option
(callback data ozon_no) in state AskingCardOwnership and then the card-done
option in state AwaitingCardConfirmation yields a persisted record whose
has_ozon_card field is no, whose card_applied field is a real (non-sentinel)
timestamp and whose ref_link_used field equals the configured referral link,
and the conversation state is reset to Idle with the draft cleared. -/
theorem claim_C2_no_card_then_done (user : TgUser)
    (now nowCard now2 now2Card : DateTime) (ctx : Ctx)
    (delivery : Except String Unit) (dft : Draft) (w : World) :
    ∃ (s1 : ChatState) (w1 : World),
      handleCallback user now nowCard ctx false delivery
          ⟨Stage.waiting_for_ozon_status, dft⟩ w "ozon_no"
        = Except.ok (s1, w1) ∧
      s1 = ⟨Stage.waiting_for_card_confirmation, dft⟩ ∧
      w1.file = w.file ∧
      ∃ (rec : Submission) (w2 : World),
        handleCallback user now2 now2Card ctx false delivery s1 w1 "card_done"
          = Except.ok (⟨Stage.idle, emptyDraft⟩, w2) ∧
        w2.file = some (save_submission w1.file rec) ∧
        w2.userMsgs = w1.userMsgs ++ [APPLICATION_SUBMITTED] ∧
        rec.has_ozon_card = "no" ∧
        rec.card_applied = now2Card.isoformat ∧
        rec.card_applied ≠ "n/a" ∧ rec.card_applied ≠ "" ∧
        rec.ref_link_used = ctx.REF_LINK := by
  refine ⟨⟨Stage.waiting_for_card_confirmation, dft⟩,
    { w with userMsgs := w.userMsgs ++ [OZON_PROMO] },
    by rfl, rfl, rfl, subNo user now2 now2Card ctx dft,
    finishWorld ctx.ADMIN_CHAT_ID delivery
      { w with userMsgs := w.userMsgs ++ [OZON_PROMO] }
      (subNo user now2 now2Card ctx dft)
      ("Новая заявка (оформил карту): " ++ submissionStr (subNo user now2 now2Card ctx dft)),
    by rfl, ?_, ?_, rfl, rfl, isoformat_ne_na now2Card, isoformat_ne_empty now2Card, rfl⟩
  · simp [finishWorld, notify_admin_file]
  · simp [finishWorld, notify_admin_userMsgs]

/-- C10: if the persistence step of a terminal transition raises, the
exception propagates uncaught out of the handler (the result is an error
carrying no new state or world): the admin notification is not sent, the
success message is not shown and the FSM reset does not occur, the flow
being persist, then notify, then success message, then reset, each step
only after the previous one succeeded. -/
theorem claim_C10_persist_failure_propagates (user : TgUser)
    (now nowCard : DateTime) (ctx : Ctx) (delivery : Except String Unit)
    (dft : Draft) (w : World) :
    handleCallback user now nowCard ctx true delivery
        ⟨Stage.waiting_for_ozon_status, dft⟩ w "ozon_yes"
      = Except.error "IOError" ∧
    handleCallback user now nowCard ctx true delivery
        ⟨Stage.waiting_for_card_confirmation, dft⟩ w "card_done"
      = Except.error "IOError" := ⟨rfl, rfl⟩

/-- C6: save_submission creates the backing store with the fixed column
header when the store is absent, and on a call with existing content
returns that content unchanged as a prefix with exactly one appended row
(appends never truncate, rewrite or mutate prior rows). -/
theorem claim_C6_append_only (r : Submission) (lines : List String) :
    save_submission none r = [HEADER_LINE, csvRow r] ∧
    save_submission (some lines) r = lines ++ [csvRow r] ∧
    lines <+: save_submission (some lines) r ∧
    (save_submission (some lines) r).length = lines.length + 1 := by
  refine ⟨rfl, rfl, ⟨[csvRow r], rfl⟩, ?_⟩
  simp [save_submission]

/-- C8: every record persisted via the two terminal transitions has a
non-sentinel timestamp (the isoformat instant, never n/a and never empty)
and carries the platform user id; the store itself enforces no
non-emptiness of full_name or phone — save_submission appends a record
with both fields empty just the same. -/
theorem claim_C8_record_invariants (user : TgUser)
    (now nowCard : DateTime) (ctx : Ctx) (delivery : Except String Unit)
    (dft : Draft) (w : World) (r : Submission) (lines : List String) :
    (∃ (rec : Submission) (w2 : World),
      handleCallback user now nowCard ctx false delivery
          ⟨Stage.waiting_for_ozon_status, dft⟩ w "ozon_yes"
        = Except.ok (⟨Stage.idle, emptyDraft⟩, w2) ∧
      w2.file = some (save_submission w.file rec) ∧
      rec.timestamp = now.isoformat ∧
      rec.timestamp ≠ "n/a" ∧ rec.timestamp ≠ "" ∧ rec.tg_id = user.id) ∧
    (∃ (rec : Submission) (w2 : World),
      handleCallback user now nowCard ctx false delivery
          ⟨Stage.waiting_for_card_confirmation, dft⟩ w "card_done"
        = Except.ok (⟨Stage.idle, emptyDraft⟩, w2) ∧
      w2.file = some (save_submission w.file rec) ∧
      rec.timestamp = now.isoformat ∧
      rec.timestamp ≠ "n/a" ∧ rec.timestamp ≠ "" ∧ rec.tg_id = user.id) ∧
    save_submission (some lines) { r with full_name := "", phone := "" }
      = lines ++ [csvRow { r with full_name := "", phone := "" }] := by
  refine ⟨⟨subYes user now dft,
      finishWorld ctx.ADMIN_CHAT_ID delivery w (subYes user now dft)
        ("Новая заявка: " ++ submissionStr (subYes user now dft)),
      by rfl, ?_, rfl, isoformat_ne_na now, isoformat_ne_empty now, rfl⟩,
    ⟨subNo user now nowCard ctx dft,
      finishWorld ctx.ADMIN_CHAT_ID delivery w (subNo user now nowCard ctx dft)
        ("Новая заявка (оформил карту): " ++ submissionStr (subNo user now nowCard ctx dft)),
      by rfl, ?_, rfl, isoformat_ne_na now, isoformat_ne_empty now, rfl⟩, rfl⟩
  · simp [finishWorld, notify_admin_file]
  · simp [finishWorld, notify_admin_file]

/-- C9: the notifier is a no-op when no admin destination is configured
(ADMIN_CHAT_ID unset or empty, both falsy in Python); when a destination is
configured, a delivery failure is caught and logged and never propagated
(notify_admin returns a plain World, and the failure only appends to the
log), so a notification failure never prevents the success message or the
state reset of the terminal transition that follows it. -/
theorem claim_C9_notifier (d : Except String Unit) (w : World) (t : String)
    (cid e : String) (hc : cid ≠ "") (user : TgUser) (now nowCard : DateTime)
    (ctx : Ctx) (dft : Draft) (wz : World) :
    notify_admin none d w t = w ∧
    notify_admin (some "") d w t = w ∧
    notify_admin (some cid) (Except.error e) w t
      = { w with adminLog := w.adminLog ++ [ADMIN_LOG_PREFIX ++ e] } ∧
    (notify_admin (some cid) (Except.error e) w t).userMsgs = w.userMsgs ∧
    (∃ w2 : World,
      handleCallback user now nowCard ctx false (Except.error e)
          ⟨Stage.waiting_for_ozon_status, dft⟩ wz "ozon_yes"
        = Except.ok (⟨Stage.idle, emptyDraft⟩, w2) ∧
      w2.userMsgs = wz.userMsgs ++ [APPLICATION_SUBMITTED]) := by
  refine ⟨rfl, rfl, ?_, ?_, ?_⟩
  · simp [notify_admin, hc]
  · simp [notify_admin_userMsgs]
  · refine ⟨finishWorld ctx.ADMIN_CHAT_ID (Except.error e) wz
      (subYes user now dft)
      ("Новая заявка: " ++ submissionStr (subYes user now dft)), by rfl, ?_⟩
    simp [finishWorld, notify_admin_userMsgs]

/-- C9 witness: the C9 theorem applied at a concrete configured destination
and failing delivery. -/
theorem claim_C9_notifier_witness :
    notify_admin none (Except.error "neterr") ⟨none, [], [], []⟩ "note" = ⟨none, [], [], []⟩ ∧
    notify_admin (some "") (Except.error "neterr") ⟨none, [], [], []⟩ "note" = ⟨none, [], [], []⟩ ∧
    notify_admin (some "42") (Except.error "neterr") ⟨none, [], [], []⟩ "note"
      = { (⟨none, [], [], []⟩ : World) with
          adminLog := ([] : List String) ++ [ADMIN_LOG_PREFIX ++ "neterr"] } ∧
    (notify_admin (some "42") (Except.error "neterr") ⟨none, [], [], []⟩ "note").userMsgs
      = (⟨none, [], [], []⟩ : World).userMsgs ∧
    (∃ w2 : World,
      handleCallback ⟨7, some "user7"⟩ ⟨2026, 1, 2, 3, 4, 5, 6⟩ ⟨2026, 1, 2, 3, 4, 5, 6⟩
          ⟨"https://ref.example", some "42"⟩ false (Except.error "neterr")
          ⟨Stage.waiting_for_ozon_status, ⟨some "Ivanov Ivan", some "+79990001122"⟩⟩
          ⟨none, [], [], []⟩ "ozon_yes"
        = Except.ok (⟨Stage.idle, emptyDraft⟩, w2) ∧
      w2.userMsgs = (⟨none, [], [], []⟩ : World).userMsgs ++ [APPLICATION_SUBMITTED]) :=
  claim_C9_notifier (Except.error "neterr") ⟨none, [], [], []⟩ "note" "42" "neterr"
    (by decide) ⟨7, some "user7"⟩ ⟨2026, 1, 2, 3, 4, 5, 6⟩ ⟨2026, 1, 2, 3, 4, 5, 6⟩
    ⟨"https://ref.example", some "42"⟩ ⟨some "Ivanov Ivan", some "+79990001122"⟩
    ⟨none, [], [], []⟩

/-- C3 counterexample: the claim says text that is empty after trimming
does not advance the state in CollectingName; but process_name has no such
guard — a whitespace-only message advances to CollectingPhone storing the
empty string as full_name. -/
theorem claim_C3_counterexample :
    pyStrip " " = "" ∧
    (handleText ⟨Stage.waiting_for_name, emptyDraft⟩ ⟨none, [], [], []⟩ " ").1
      = ⟨Stage.waiting_for_phone, ⟨some "", none⟩⟩ := ⟨rfl, rfl⟩

/-- C3 amended: in state CollectingName every text message — with no
non-emptiness guard — advances the state machine to CollectingPhone and
stores the trimmed text as full_name, including text empty after
trimming. -/
theorem claim_C3_amended (dft : Draft) (w : World) (text : String) :
    (handleText ⟨Stage.waiting_for_name, dft⟩ w text).1
      = ⟨Stage.waiting_for_phone, { dft with full_name := some (pyStrip text) }⟩ ∧
    (handleText ⟨Stage.waiting_for_name, dft⟩ w text).2.userMsgs
      = w.userMsgs ++ [ASK_PHONE] := by
  constructor <;> simp [handleText]

/-- C4 counterexample: the claim says the input text is stored as phone
verbatim; process_manual_phone stores message.text.strip(), so an accepted
input with trailing whitespace is not stored verbatim. -/
theorem claim_C4_counterexample :
    pyStartsWith "+7 " "+" = true ∧
    (handleText ⟨Stage.waiting_for_phone, emptyDraft⟩ ⟨none, [], [], []⟩ "+7 ").1
      = ⟨Stage.waiting_for_ozon_status, ⟨none, some "+7"⟩⟩ ∧
    ("+7" : String) ≠ "+7 " := ⟨rfl, rfl, by decide⟩

/-- C4 amended: in state CollectingPhone every free-text input beginning
with a plus sign is accepted — the state advances to AskingCardOwnership —
and the text is stored as phone after stripping surrounding whitespace
(hence verbatim exactly when stripping changes nothing), with no further
validation. -/
theorem claim_C4_amended (dft : Draft) (w : World) (text : String)
    (h : pyStartsWith text "+" = true) :
    (handleText ⟨Stage.waiting_for_phone, dft⟩ w text).1
      = ⟨Stage.waiting_for_ozon_status, { dft with phone := some (pyStrip text) }⟩ ∧
    (handleText ⟨Stage.waiting_for_phone, dft⟩ w text).2.userMsgs
      = w.userMsgs ++ [ASK_OZON] := by
  have hb : text ≠ MANUAL_BUTTON := by
    intro he
    rw [he] at h
    exact absurd h (by decide)
  constructor <;> simp [handleText, h, hb]

/-- C4 witness: the amended C4 theorem applied at a concrete accepted
phone input. -/
theorem claim_C4_witness :
    (handleText ⟨Stage.waiting_for_phone, emptyDraft⟩ ⟨none, [], [], []⟩ "+79990001122").1
      = ⟨Stage.waiting_for_ozon_status,
         { emptyDraft with phone := some (pyStrip "+79990001122") }⟩ ∧
    (handleText ⟨Stage.waiting_for_phone, emptyDraft⟩ ⟨none, [], [], []⟩ "+79990001122").2.userMsgs
      = (⟨none, [], [], []⟩ : World).userMsgs ++ [ASK_OZON] :=
  claim_C4_amended emptyDraft ⟨none, [], [], []⟩ "+79990001122" rfl

/-- C5 counterexample: the claim says a shared contact carrying phone
number p and a typed message whose text is p yield the same stored phone;
process_contact stores the contact number as supplied while
process_manual_phone stores the stripped text, so they differ on a number
with trailing whitespace. -/
theorem claim_C5_counterexample :
    pyStartsWith "+79 " "+" = true ∧
    (handleContact ⟨Stage.waiting_for_phone, emptyDraft⟩ ⟨none, [], [], []⟩ "+79 ").1.draft.phone
      = some "+79 " ∧
    (handleText ⟨Stage.waiting_for_phone, emptyDraft⟩ ⟨none, [], [], []⟩ "+79 ").1.draft.phone
      = some "+79" ∧
    (some "+79 " : Option String) ≠ some "+79" := ⟨rfl, rfl, rfl, by decide⟩

/-- C5 amended: in state CollectingPhone a shared-contact event and a
typed plus-prefixed text both transition to AskingCardOwnership; the
contact stores its phone number as supplied, the typed path stores the
stripped text, so the stored phones agree exactly when stripping leaves
the input unchanged. -/
theorem claim_C5_amended (dft : Draft) (w w2 : World) (p : String)
    (h : pyStartsWith p "+" = true) :
    (handleContact ⟨Stage.waiting_for_phone, dft⟩ w p).1.stage
      = Stage.waiting_for_ozon_status ∧
    (handleText ⟨Stage.waiting_for_phone, dft⟩ w2 p).1.stage
      = Stage.waiting_for_ozon_status ∧
    (handleContact ⟨Stage.waiting_for_phone, dft⟩ w p).1.draft.phone = some p ∧
    (handleText ⟨Stage.waiting_for_phone, dft⟩ w2 p).1.draft.phone
      = some (pyStrip p) ∧
    (pyStrip p = p →
      (handleContact ⟨Stage.waiting_for_phone, dft⟩ w p).1.draft.phone
        = (handleText ⟨Stage.waiting_for_phone, dft⟩ w2 p).1.draft.phone) := by
  have hb : p ≠ MANUAL_BUTTON := by
    intro he
    rw [he] at h
    exact absurd h (by decide)
  refine ⟨?_, ?_, ?_, ?_, ?_⟩ <;> simp [handleContact, handleText, h, hb]
  intro ht
  simp [ht]

/-- C5 witness: the amended C5 theorem applied at a concrete strip-stable
phone number, on which both paths store the same phone. -/
theorem claim_C5_witness :
    (handleContact ⟨Stage.waiting_for_phone, emptyDraft⟩ ⟨none, [], [], []⟩ "+79991112233").1.stage
      = Stage.waiting_for_ozon_status ∧
    (handleText ⟨Stage.waiting_for_phone, emptyDraft⟩ ⟨none, [], [], []⟩ "+79991112233").1.stage
      = Stage.waiting_for_ozon_status ∧
    (handleContact ⟨Stage.waiting_for_phone, emptyDraft⟩ ⟨none, [], [], []⟩ "+79991112233").1.draft.phone
      = some "+79991112233" ∧
    (handleText ⟨Stage.waiting_for_phone, emptyDraft⟩ ⟨none, [], [], []⟩ "+79991112233").1.draft.phone
      = some (pyStrip "+79991112233") ∧
    (pyStrip "+79991112233" = "+79991112233" →
      (handleContact ⟨Stage.waiting_for_phone, emptyDraft⟩ ⟨none, [], [], []⟩ "+79991112233").1.draft.phone
        = (handleText ⟨Stage.waiting_for_phone, emptyDraft⟩ ⟨none, [], [], []⟩ "+79991112233").1.draft.phone) :=
  claim_C5_amended emptyDraft ⟨none, [], [], []⟩ ⟨none, [], [], []⟩ "+79991112233" rfl

/-- C7 counterexample: the claim says unmatched text causes a generic
re-prompt in every state; the fallback handler is registered without a
state filter, so in aiogram 2 it only fires in the default (Idle) state —
in CollectingPhone an unmatched text matches no handler and no re-prompt
is sent. -/
theorem claim_C7_counterexample :
    matchedBySpecific Stage.waiting_for_phone "hello" = false ∧
    handleText ⟨Stage.waiting_for_phone, emptyDraft⟩ ⟨none, [], [], []⟩ "hello"
      = (⟨Stage.waiting_for_phone, emptyDraft⟩, ⟨none, [], [], []⟩) := ⟨rfl, rfl⟩

/-- C7 amended: in every state a text message matched by no specific
handler filter leaves the conversation state unchanged and persists no
record; the generic re-prompt pointing at the apply control is sent only
in the Idle state, while in any other state the message matches no handler
at all and nothing is sent. -/
theorem claim_C7_amended (s : ChatState) (w : World) (text : String)
    (h : matchedBySpecific s.stage text = false) :
    (handleText s w text).1 = s ∧
    (handleText s w text).2.file = w.file ∧
    (s.stage = Stage.idle →
      (handleText s w text).2.userMsgs = w.userMsgs ++ [FALLBACK_TEXT]) ∧
    (s.stage ≠ Stage.idle → handleText s w text = (s, w)) := by
  obtain ⟨st, dft⟩ := s
  cases st <;> simp_all [handleText, matchedBySpecific]

/-- C7 witness: the amended C7 theorem applied to an unmatched text in the
non-Idle state AskingCardOwnership. -/
theorem claim_C7_witness :
    (handleText ⟨Stage.waiting_for_ozon_status, emptyDraft⟩
        ⟨some [HEADER_LINE], [], [], []⟩ "hi").1
      = ⟨Stage.waiting_for_ozon_status, emptyDraft⟩ ∧
    (handleText ⟨Stage.waiting_for_ozon_status, emptyDraft⟩
        ⟨some [HEADER_LINE], [], [], []⟩ "hi").2.file
      = (⟨some [HEADER_LINE], [], [], []⟩ : World).file ∧
    ((⟨Stage.waiting_for_ozon_status, emptyDraft⟩ : ChatState).stage = Stage.idle →
      (handleText ⟨Stage.waiting_for_ozon_status, emptyDraft⟩
          ⟨some [HEADER_LINE], [], [], []⟩ "hi").2.userMsgs
        = (⟨some [HEADER_LINE], [], [], []⟩ : World).userMsgs ++ [FALLBACK_TEXT]) ∧
    ((⟨Stage.waiting_for_ozon_status, emptyDraft⟩ : ChatState).stage ≠ Stage.idle →
      handleText ⟨Stage.waiting_for_ozon_status, emptyDraft⟩
          ⟨some [HEADER_LINE], [], [], []⟩ "hi"
        = (⟨Stage.waiting_for_ozon_status, emptyDraft⟩,
           ⟨some [HEADER_LINE], [], [], []⟩)) :=
  claim_C7_amended ⟨Stage.waiting_for_ozon_status, emptyDraft⟩
    ⟨some [HEADER_LINE], [], [], []⟩ "hi" rfl

end OzonBot
